import Mathlib

/-!
Verification development for the performance-templates repository: a shallow
embedding of the template list view (src/frontend/pages/performance/templates/index.tsx)
and of the server bootstrap entrypoint, with theorems settling the stated
properties of loading, normalization, role filtering, deletion and port resolution.
-/

namespace EP

/-- A template summary as consumed by the list view. The active flag is
tri-state, mirroring the JavaScript value being `true`, `false` or absent
(`undefined`): the view tests `t.isActive !== false`, which keeps entries whose
flag is absent. -/
structure Template where
  _id : String
  name : String
  templateType : String
  isActive : Option Bool
deriving Repr, DecidableEq

/-- The response body of `GET /performance/templates` as the view inspects it:
a bare array, an object whose `items` and `data` fields may each hold a list or
be absent/null, or any other value (null, string, number), for which both
optional-chained field reads yield undefined. -/
inductive RespBody where
  | arr (xs : List Template)
  | obj (itemsField : Option (List Template)) (dataField : Option (List Template))
  | other
deriving Repr, DecidableEq

/-- Normalization step of the load operation, embedding
`Array.isArray(data) ? data : data?.items ?? data?.data ?? []`. -/
def normalize (body : RespBody) : List Template :=
  match body with
  | RespBody.arr xs => xs
  | RespBody.obj itemsField dataField =>
    match itemsField with
    | some xs => xs
    | none =>
      match dataField with
      | some xs => xs
      | none => []
  | RespBody.other => []

/-- The manager-visible predicate, embedding `t.isActive !== false`. -/
def keepTemplate (t : Template) : Bool :=
  t.isActive != some false

/-- Role projection applied to the normalized list, embedding
`if (isManager && !isHR) filteredList = list.filter(t => t.isActive !== false)`. -/
def roleFiltered (isHR isManager : Bool) (list : List Template) : List Template :=
  if isManager && !isHR then List.filter keepTemplate list else list

/-- The JavaScript truthiness fallback `m || d` for an optional string `m`:
null/undefined and the empty string both fall through to the default. -/
def jsFalsyOr (m : Option String) (d : String) : String :=
  match m with
  | some s => if s = "" then d else s
  | none => d

/-- The JavaScript truthiness test `!token` on `localStorage.getItem("token")`:
true when the stored value is null or the empty string. -/
def tokenMissing (token : Option String) : Bool :=
  match token with
  | none => true
  | some t => t == ""

/-- The React state of the page: `templates`, `loading`, `error` and
`operationLoading` (`useState` hooks). -/
structure ViewState where
  templates : List Template
  loading : Bool
  error : Option String
  operationLoading : Option String
deriving Repr, DecidableEq

/-- The initial state of the page, matching the `useState` initializers. -/
def viewInit : ViewState :=
  { templates := [], loading := true, error := none, operationLoading := none }

/-- A concrete explicitly-inactive template summary, used to evaluate the
development on the scenario of the specification
(`_id "1"`, name `Q1 Review`, type `self`, `isActive: false`). -/
def tmplInactive : Template :=
  { _id := "1", name := "Q1 Review", templateType := "self", isActive := some false }

/-- Result of an awaited HTTP request: success with a body, or an axios-style
failure carrying `err.response?.status` and `err.response?.data?.message`
(each absent when the layer that would provide it is missing). -/
inductive ApiResult (α : Type) where
  | ok (v : α)
  | err (status : Option Nat) (message : Option String)
deriving Repr, DecidableEq

/-- Observable outcome of one `loadTemplates()` call: the final component
state, whether the network request was issued, and the `router.push` targets
performed, in order. -/
structure LoadOutcome where
  state : ViewState
  networkCalled : Bool
  redirects : List String
deriving Repr, DecidableEq

/-- Embedding of `loadTemplates()`. Inputs are the ambient role flags
(`isHR`, `isManager` from `getCurrentRole()`), the stored token, the result the
request would produce, and the pre-call state. The `finally` clause clears the
loading flag on every path, including the early return and the catch arm. -/
def loadTemplates (isHR isManager : Bool) (token : Option String)
    (fetch : ApiResult RespBody) (s : ViewState) : LoadOutcome :=
  let s1 : ViewState := { s with loading := true, error := none }
  if tokenMissing token then
    { state := { s1 with error := some "Not authenticated. Please login again.", loading := false },
      networkCalled := false,
      redirects := ["/login"] }
  else
    match fetch with
    | ApiResult.ok body =>
      let list := normalize body
      let filteredList := roleFiltered isHR isManager list
      let errVal : Option String :=
        if filteredList.length = 0 ∧ 0 < list.length then
          some "No active templates available. Please contact HR."
        else if filteredList.length = 0 then
          none
        else s1.error
      { state := { s1 with error := errVal, templates := filteredList, loading := false },
        networkCalled := true,
        redirects := [] }
    | ApiResult.err status msg =>
      let errMsg : String :=
        if status = some 403 then
          "You do not have permission to view templates"
        else if status = some 401 then
          "Authentication failed. Please login again."
        else
          jsFalsyOr msg "Failed to load templates. Please check your connection."
      { state := { s1 with error := some errMsg, templates := [], loading := false },
        networkCalled := true,
        redirects := if status = some 401 then ["/login"] else [] }

/-- The Authorization header the view builds: the template literal
`Bearer ${token}` renders a null token as the string null. -/
def bearerHeader (token : Option String) : String :=
  "Bearer " ++ (match token with | some t => t | none => "null")

/-- Observable outcome of one `deleteTemplate(id)` call: final state, whether
the DELETE request was issued (and with which Authorization header), how many
times `loadTemplates()` was triggered, and any `router.push` targets. -/
structure DeleteOutcome where
  state : ViewState
  networkCalled : Bool
  header : Option String
  reloadCount : Nat
  redirects : List String
deriving Repr, DecidableEq

/-- Embedding of `deleteTemplate(id)`. `confirmed` is the result of the
`confirm` dialog; a declined dialog returns before any effect. On success the
view triggers one reload; the `finally` clause clears the in-flight marker on
every path past the confirmation. -/
def deleteTemplate (id : String) (confirmed : Bool) (token : Option String)
    (req : ApiResult Unit) (s : ViewState) : DeleteOutcome :=
  if !confirmed then
    { state := s, networkCalled := false, header := none, reloadCount := 0, redirects := [] }
  else
    let s1 : ViewState := { s with operationLoading := some ("delete-" ++ id) }
    match req with
    | ApiResult.ok _ =>
      { state := { s1 with operationLoading := none },
        networkCalled := true,
        header := some (bearerHeader token),
        reloadCount := 1,
        redirects := [] }
    | ApiResult.err status msg =>
      let errMsg : String :=
        if status = some 403 then
          "You do not have permission"
        else if status = some 400 then
          jsFalsyOr msg "Failed to delete template"
        else
          "Failed to delete template"
      { state := { s1 with error := some errMsg, operationLoading := none },
        networkCalled := true,
        header := some (bearerHeader token),
        reloadCount := 0,
        redirects := [] }

/-- Observable outcome of the server bootstrap: the value passed to
`app.listen` and the log lines printed after it. -/
structure BootstrapResult where
  port : String
  logs : List String
deriving Repr, DecidableEq

/-- Port resolution in the bootstrap, embedding
`const PORT = process.env.PORT || 3001`: the JavaScript truthiness fallback
fires when the variable is unset and also when it is set to the empty string. -/
def resolvePort (envPORT : Option String) : String :=
  match envPORT with
  | some p => if p = "" then "3001" else p
  | none => "3001"

/-- Embedding of the `bootstrap()` tail: bind to the resolved port, then log
readiness for the backend and for the documentation endpoint. -/
def bootstrap (envPORT : Option String) : BootstrapResult :=
  let PORT := resolvePort envPORT
  { port := PORT,
    logs := ["Backend running at http://localhost:" ++ PORT ++ " 🚀",
             "Swagger running at http://localhost:" ++ PORT ++ "/api 🟢"] }

/-- C1: normalization maps each of the three accepted response shapes — a bare
sequence, an object with an `items` field, an object with a `data` field — to
the same ordered sequence, `items` winning over `data` when both are present,
and maps anything else to the empty sequence. -/
theorem claim_C1_normalize_shapes (xs : List Template) (d : Option (List Template)) :
    normalize (RespBody.arr xs) = xs ∧
    normalize (RespBody.obj (some xs) d) = xs ∧
    normalize (RespBody.obj none (some xs)) = xs ∧
    normalize (RespBody.obj none none) = [] ∧
    normalize RespBody.other = [] :=
  ⟨rfl, rfl, rfl, rfl, rfl⟩

/-- C2: on a successful load with a usable token, a Manager (non-HR) sees
exactly the entries of the normalized sequence whose active flag is not
explicitly false, while HR sees the normalized sequence unfiltered. -/
theorem claim_C2_role_projection (token : Option String) (h : tokenMissing token = false)
    (body : RespBody) (s : ViewState) :
    (loadTemplates false true token (ApiResult.ok body) s).state.templates
        = List.filter (fun t => t.isActive != some false) (normalize body) ∧
    (∀ isManager : Bool,
      (loadTemplates true isManager token (ApiResult.ok body) s).state.templates
          = normalize body) := by
  constructor
  · simp only [loadTemplates, h, roleFiltered]
    rfl
  · intro isManager
    simp [loadTemplates, h, roleFiltered]

/-- C2 witness: instantiated on the scenario of the specification, a fetch of
one explicitly-inactive template: the Manager view drops it, the HR view keeps it. -/
theorem claim_C2_role_projection_witness :
    (loadTemplates false true (some "tok") (ApiResult.ok (RespBody.obj none (some [tmplInactive])))
        viewInit).state.templates = [] ∧
    (loadTemplates true false (some "tok") (ApiResult.ok (RespBody.obj none (some [tmplInactive])))
        viewInit).state.templates = [tmplInactive] := by
  have hth := claim_C2_role_projection (some "tok") (by decide)
      (RespBody.obj none (some [tmplInactive])) viewInit
  exact ⟨by rw [hth.1]; decide, by rw [hth.2 false]; rfl⟩

/-- C3: on a successful load with a usable token, if the normalized sequence is
non-empty and role filtering empties it, the view sets the informational
contact-HR message and an empty displayed collection; if the normalized
sequence was already empty, no error is set. -/
theorem claim_C3_empty_after_filter (isHR isManager : Bool) (token : Option String)
    (h : tokenMissing token = false) (body : RespBody) (s : ViewState) :
    (normalize body ≠ [] → roleFiltered isHR isManager (normalize body) = [] →
      (loadTemplates isHR isManager token (ApiResult.ok body) s).state.error
          = some "No active templates available. Please contact HR." ∧
      (loadTemplates isHR isManager token (ApiResult.ok body) s).state.templates = []) ∧
    (normalize body = [] →
      (loadTemplates isHR isManager token (ApiResult.ok body) s).state.error = none) := by
  constructor
  · intro h1 h2
    have hpos : 0 < (normalize body).length := List.length_pos.mpr h1
    simp [loadTemplates, h, h2, hpos]
  · intro h1
    have h2 : roleFiltered isHR isManager (normalize body) = [] := by
      rw [h1]; simp [roleFiltered]
    simp [loadTemplates, h, h1, h2]

/-- C3 witness: a Manager load of one explicitly-inactive template yields the
contact-HR message with an empty collection, and a load of an empty sequence
yields no error. -/
theorem claim_C3_empty_after_filter_witness :
    ((loadTemplates false true (some "tok") (ApiResult.ok (RespBody.arr [tmplInactive]))
        viewInit).state.error = some "No active templates available. Please contact HR." ∧
     (loadTemplates false true (some "tok") (ApiResult.ok (RespBody.arr [tmplInactive]))
        viewInit).state.templates = []) ∧
    (loadTemplates false true (some "tok") (ApiResult.ok (RespBody.arr []))
        viewInit).state.error = none :=
  ⟨(claim_C3_empty_after_filter false true (some "tok") (by decide)
      (RespBody.arr [tmplInactive]) viewInit).1 (by decide) (by decide),
   (claim_C3_empty_after_filter false true (some "tok") (by decide)
      (RespBody.arr []) viewInit).2 (by decide)⟩

/-- C4: a load with no stored token makes no network call, sets the
not-authenticated message, and redirects to the login page, whatever the role
flags, the would-be response and the prior state. -/
theorem claim_C4_missing_token (isHR isManager : Bool) (fetch : ApiResult RespBody)
    (s : ViewState) :
    (loadTemplates isHR isManager none fetch s).networkCalled = false ∧
    (loadTemplates isHR isManager none fetch s).state.error
        = some "Not authenticated. Please login again." ∧
    (loadTemplates isHR isManager none fetch s).redirects = ["/login"] :=
  ⟨rfl, rfl, rfl⟩

/-- C5 counterexample: the claim as stated promises the server-provided message
whenever one is present, but a present-and-empty message string is discarded by
the truthiness fallback: the resulting error is not the empty server message. -/
theorem claim_C5_counterexample :
    (loadTemplates true false (some "tok") (ApiResult.err (some 500) (some ""))
        viewInit).state.error ≠ some "" := by
  decide

/-- C5 amended: on a failing load with a usable token, status 403 sets the
permission message, status 401 sets the authentication-failed message and
redirects to login, and any other failure sets the server-provided message when
present and non-empty, else the generic connectivity message; in every failure
the collection is cleared, and the loading flag is cleared on every completion. -/
theorem claim_C5_load_failure_mapping (isHR isManager : Bool) (token : Option String)
    (h : tokenMissing token = false) (status : Option Nat) (msg : Option String)
    (s : ViewState) :
    (loadTemplates isHR isManager token (ApiResult.err (some 403) msg) s).state.error
        = some "You do not have permission to view templates" ∧
    (loadTemplates isHR isManager token (ApiResult.err (some 401) msg) s).state.error
        = some "Authentication failed. Please login again." ∧
    (loadTemplates isHR isManager token (ApiResult.err (some 401) msg) s).redirects
        = ["/login"] ∧
    (status ≠ some 403 → status ≠ some 401 →
      (loadTemplates isHR isManager token (ApiResult.err status msg) s).state.error
          = some (jsFalsyOr msg "Failed to load templates. Please check your connection.")) ∧
    (loadTemplates isHR isManager token (ApiResult.err status msg) s).state.templates = [] ∧
    (∀ fetch, (loadTemplates isHR isManager token fetch s).state.loading = false) := by
  refine ⟨?_, ?_, ?_, ?_, ?_, ?_⟩
  · simp [loadTemplates, h]
  · simp [loadTemplates, h]
  · simp [loadTemplates, h]
  · intro h1 h2
    simp [loadTemplates, h, h1, h2]
  · simp [loadTemplates, h]
  · intro fetch
    cases fetch <;> simp [loadTemplates, h]

/-- C5 witness: a concrete status-500 failure with a non-empty server message
surfaces that message and clears the collection. -/
theorem claim_C5_load_failure_mapping_witness :
    (loadTemplates true false (some "tok") (ApiResult.err (some 500) (some "boom"))
        viewInit).state.error = some "boom" ∧
    (loadTemplates true false (some "tok") (ApiResult.err (some 500) (some "boom"))
        viewInit).state.templates = [] := by
  have hth := claim_C5_load_failure_mapping true false (some "tok") (by decide)
      (some 500) (some "boom") viewInit
  exact ⟨by rw [hth.2.2.2.1 (by decide) (by decide)]; decide, hth.2.2.2.2.1⟩

/-- C6: a delete invocation whose confirmation is declined makes no network
call, triggers no reload, and leaves the whole view state unchanged. -/
theorem claim_C6_decline_noop (id : String) (token : Option String) (req : ApiResult Unit)
    (s : ViewState) :
    (deleteTemplate id false token req s).state = s ∧
    (deleteTemplate id false token req s).networkCalled = false ∧
    (deleteTemplate id false token req s).reloadCount = 0 :=
  ⟨rfl, rfl, rfl⟩

/-- C7 counterexample: the claim as stated promises the server-provided message
on a 400 failure whenever one is present, but a present-and-empty message is
discarded by the truthiness fallback: the resulting error is not the empty
server message. -/
theorem claim_C7_counterexample :
    (deleteTemplate "t1" true (some "tok") (ApiResult.err (some 400) (some ""))
        viewInit).state.error ≠ some "" := by
  decide

/-- C7 amended: on a failing confirmed delete, status 403 sets the permission
message, status 400 sets the server-provided message when present and
non-empty, else the generic delete-failure message, any other failure sets the
generic delete-failure message; the displayed collection is unchanged on every
failure, and the in-flight marker is cleared on every completion. -/
theorem claim_C7_delete_failure_mapping (id : String) (token : Option String)
    (status : Option Nat) (msg : Option String) (s : ViewState) :
    (deleteTemplate id true token (ApiResult.err (some 403) msg) s).state.error
        = some "You do not have permission" ∧
    (deleteTemplate id true token (ApiResult.err (some 400) msg) s).state.error
        = some (jsFalsyOr msg "Failed to delete template") ∧
    (status ≠ some 403 → status ≠ some 400 →
      (deleteTemplate id true token (ApiResult.err status msg) s).state.error
          = some "Failed to delete template") ∧
    (deleteTemplate id true token (ApiResult.err status msg) s).state.templates
        = s.templates ∧
    (∀ req, (deleteTemplate id true token req s).state.operationLoading = none) := by
  refine ⟨?_, ?_, ?_, rfl, ?_⟩
  · simp [deleteTemplate]
  · simp [deleteTemplate]
  · intro h1 h2
    simp [deleteTemplate, h1, h2]
  · intro req
    cases req <;> rfl

/-- C7 witness: a concrete status-500 delete failure sets the generic message,
leaves the collection unchanged, and clears the in-flight marker. -/
theorem claim_C7_delete_failure_mapping_witness :
    (deleteTemplate "t1" true (some "tok") (ApiResult.err (some 500) none)
        viewInit).state.error = some "Failed to delete template" ∧
    (deleteTemplate "t1" true (some "tok") (ApiResult.err (some 500) none)
        viewInit).state.templates = viewInit.templates ∧
    (deleteTemplate "t1" true (some "tok") (ApiResult.err (some 500) none)
        viewInit).state.operationLoading = none := by
  have hth := claim_C7_delete_failure_mapping "t1" (some "tok") (some 500) none viewInit
  exact ⟨hth.2.2.1 (by decide) (by decide), hth.2.2.2.1,
    hth.2.2.2.2 (ApiResult.err (some 500) none)⟩

/-- C8: a confirmed delete whose request succeeds issues the network call,
triggers exactly one reload of the list, removes nothing locally, and clears
the in-flight marker. -/
theorem claim_C8_delete_success_reload (id : String) (token : Option String)
    (s : ViewState) :
    (deleteTemplate id true token (ApiResult.ok ()) s).reloadCount = 1 ∧
    (deleteTemplate id true token (ApiResult.ok ()) s).state.operationLoading = none ∧
    (deleteTemplate id true token (ApiResult.ok ()) s).state.templates = s.templates ∧
    (deleteTemplate id true token (ApiResult.ok ()) s).networkCalled = true :=
  ⟨rfl, rfl, rfl, rfl⟩

/-- C9 counterexample: the claim as stated binds the server to the port given
by the PORT variable whenever it is set, but an environment with PORT set to
the empty string resolves to the default instead. -/
theorem claim_C9_counterexample :
    (bootstrap (some "")).port = "3001" ∧ (bootstrap (some "")).port ≠ "" := by
  decide

/-- C9 amended: the bootstrap binds to the port given by PORT when it is set
and non-empty, falls back to the fixed default 3001 when PORT is unset (or
empty), and logs readiness mentioning the bound port. -/
theorem claim_C9_port_resolution (p : String) (h : p ≠ "") :
    (bootstrap (some p)).port = p ∧
    (bootstrap none).port = "3001" ∧
    (∀ env, "Backend running at http://localhost:" ++ (bootstrap env).port ++ " 🚀"
        ∈ (bootstrap env).logs) := by
  refine ⟨?_, rfl, ?_⟩
  · simp [bootstrap, resolvePort, h]
  · intro env
    simp [bootstrap]

/-- C9 witness: with PORT set to 8080 the server binds to 8080; unset PORT
binds to 3001; the readiness log names the bound port. -/
theorem claim_C9_port_resolution_witness :
    (bootstrap (some "8080")).port = "8080" ∧
    (bootstrap none).port = "3001" ∧
    ("Backend running at http://localhost:" ++ (bootstrap (some "8080")).port ++ " 🚀"
        ∈ (bootstrap (some "8080")).logs) := by
  have hth := claim_C9_port_resolution "8080" (by decide)
  exact ⟨hth.1, hth.2.1, hth.2.2 (some "8080")⟩

/-- C10: a confirmed delete performs no token-presence check: with no stored
token the request is still issued, its Authorization header is the template
literal rendering of a null token, and no redirect is performed. -/
theorem claim_C10_delete_without_token (id : String) (req : ApiResult Unit) (s : ViewState) :
    (deleteTemplate id true none req s).networkCalled = true ∧
    (deleteTemplate id true none req s).header = some "Bearer null" ∧
    (deleteTemplate id true none req s).redirects = [] := by
  cases req <;> exact ⟨rfl, rfl, rfl⟩

end EP
